import Mathlib

/-!
# StyleLicense — verification of the job-orchestration and token-ledger core

A shallow embedding of the backend's token ledger (`app/services/token_service.py`),
the generation dispatcher (`app/views/generation.py`), the style-training dispatcher
(`app/views/style.py`), the webhook receiver (`app/views/webhook.py`), the webhook
authentication middleware (`app/middleware/webhook_auth.py`), the task-envelope
builders (`app/services/rabbitmq_service.py`), the welcome-bonus grant
(`app/views/auth.py`), and the inference consumer's retry loop
(`apps/inference-server/consumer/generation_consumer.py`).

Database rows are lists of records; Django's `transaction.atomic` is modelled by
returning the original state whenever an operation fails partway.  JSON payloads
(`JSONField` columns and broker messages) are modelled by an explicit `Json` type.
-/

/-- JSON values, as stored in Django `JSONField` columns and published to the broker. -/
inductive Json where
  | null : Json
  | str (s : String) : Json
  | num (n : Int) : Json
  | bool (b : Bool) : Json
  | arr (elems : List Json) : Json
  | obj (fields : List (String × Json)) : Json

/-- Top-level keys of a JSON object (in insertion order), `[]` for non-objects. -/
def Json.keys : Json → List String
  | .obj fields => fields.map Prod.fst
  | _ => []

/-- Look up a top-level key of a JSON object. -/
def Json.lookup (j : Json) (k : String) : Option Json :=
  match j with
  | .obj fields => (fields.find? (fun p => p.1 == k)).map Prod.snd
  | _ => none

/-- A row of the `users` table (`app/models/user.py`): only the fields the core
touches. `token_balance` is a `BigIntegerField`. -/
structure UserRec where
  id : Nat
  tokenBalance : Int
deriving Repr, DecidableEq

/-- A row of the `transactions` table (`app/models/token.py`, `class Transaction`). -/
structure Txn where
  sender : Option Nat := none
  receiver : Option Nat := none
  amount : Int
  txnType : String
  txnStatus : String := "completed"
  memo : String := ""
  relatedGenerationId : Option Nat := none
  relatedStyleId : Option Nat := none
  refunded : Bool := false
deriving Repr, DecidableEq

/-- A row of the `generations` table (`app/models/generation.py`).  Note the token
field is named `consumed_tokens`; the model defines no `cost` and no `metadata`
attribute. -/
structure GenerationRec where
  id : Nat
  userId : Nat
  styleId : Nat
  aspect : String := "1:1"
  seed : Option Int := none
  consumedTokens : Int := 0
  resultUrl : Option String := none
  status : String := "queued"
  generationProgress : Option Json := none
  description : String := ""
  isPublic : Bool := false

/-- A row of the `styles` table (`app/models/style.py`): the training-relevant
fields.  The owner foreign key is named `artist`; the model defines no `user`
attribute. -/
structure StyleRec where
  id : Nat
  artistId : Nat
  name : String := ""
  modelPath : Option String := none
  trainingStatus : String := "pending"
  trainingMetric : Option Json := none
  trainingProgress : Option Json := none

/-- The backend database state touched by the orchestration core. -/
structure DB where
  users : List UserRec := []
  transactions : List Txn := []
  generations : List GenerationRec := []
  styles : List StyleRec := []

/-- `Model.objects.get(id=k)` on a list of rows keyed by `key`. -/
def findBy {α : Type} (key : α → Nat) (k : Nat) (rows : List α) : Option α :=
  rows.find? (fun r => key r == k)

/-- Overwrite the row(s) with key `k` (Django `save` on a fetched row). -/
def replaceBy {α : Type} (key : α → Nat) (k : Nat) (newRow : α) (rows : List α) : List α :=
  rows.map (fun r => if key r == k then newRow else r)

def findUser (db : DB) (uid : Nat) : Option UserRec :=
  findBy UserRec.id uid db.users

def findGeneration (db : DB) (gid : Nat) : Option GenerationRec :=
  findBy GenerationRec.id gid db.generations

def findStyle (db : DB) (sid : Nat) : Option StyleRec :=
  findBy StyleRec.id sid db.styles

def setUser (db : DB) (uid : Nat) (u : UserRec) : DB :=
  { db with users := replaceBy UserRec.id uid u db.users }

def setGeneration (db : DB) (gid : Nat) (g : GenerationRec) : DB :=
  { db with generations := replaceBy GenerationRec.id gid g db.generations }

def setStyle (db : DB) (sid : Nat) (s : StyleRec) : DB :=
  { db with styles := replaceBy StyleRec.id sid s db.styles }

def appendTxn (db : DB) (t : Txn) : DB :=
  { db with transactions := db.transactions ++ [t] }

/-- Errors raised by `TokenService` (`app/services/token_service.py`):
`ValueError` for a non-positive amount, `ValueError` for insufficient balance,
`User.DoesNotExist` for a missing user row. -/
inductive TokenErr where
  | nonPositiveAmount
  | insufficientBalance
  | userNotFound
deriving Repr, DecidableEq

namespace TokenService

/-- `TokenService.add_tokens` (`token_service.py` lines 11-51): checks the amount,
locks and rereads the user row, increments the balance, appends a `completed`
transaction with the given type crediting the user. -/
def addTokens (db : DB) (uid : Nat) (amount : Int) (reason : String)
    (txnType : String) : Except TokenErr (DB × Txn) :=
  if amount ≤ 0 then .error .nonPositiveAmount
  else
    match findUser db uid with
    | none => .error .userNotFound
    | some u =>
      let db1 := setUser db uid { u with tokenBalance := u.tokenBalance + amount }
      let t : Txn := { receiver := some uid, amount := amount, txnType := txnType,
                       txnStatus := "completed", memo := reason }
      .ok (appendTxn db1 t, t)

/-- `TokenService.consume_tokens` (`token_service.py` lines 53-106): checks the
amount, locks and rereads the user row, fails if `token_balance < amount`,
otherwise decrements the balance and appends a `completed` `consume`-type
transaction debiting the user. -/
def consumeTokens (db : DB) (uid : Nat) (amount : Int) (reason : String)
    (relatedGenerationId : Option Nat := none) (relatedStyleId : Option Nat := none) :
    Except TokenErr (DB × Txn) :=
  if amount ≤ 0 then .error .nonPositiveAmount
  else
    match findUser db uid with
    | none => .error .userNotFound
    | some u =>
      if u.tokenBalance < amount then .error .insufficientBalance
      else
        let db1 := setUser db uid { u with tokenBalance := u.tokenBalance - amount }
        let t : Txn := { sender := some uid, amount := amount, txnType := "consume",
                         txnStatus := "completed", memo := reason,
                         relatedGenerationId := relatedGenerationId,
                         relatedStyleId := relatedStyleId }
        .ok (appendTxn db1 t, t)

/-- `TokenService.refund_tokens` (`token_service.py` lines 108-150): checks the
amount, locks and rereads the user row, increments the balance, appends a
`completed` `generation`-type transaction crediting the user with
`refunded=True`. -/
def refundTokens (db : DB) (uid : Nat) (amount : Int) (reason : String)
    (relatedGenerationId : Option Nat := none) : Except TokenErr (DB × Txn) :=
  if amount ≤ 0 then .error .nonPositiveAmount
  else
    match findUser db uid with
    | none => .error .userNotFound
    | some u =>
      let db1 := setUser db uid { u with tokenBalance := u.tokenBalance + amount }
      let t : Txn := { receiver := some uid, amount := amount, txnType := "generation",
                       txnStatus := "completed", memo := reason,
                       relatedGenerationId := relatedGenerationId, refunded := true }
      .ok (appendTxn db1 t, t)

/-- The state visible after a `@transaction.atomic` call to `consume_tokens`:
on any raised error the whole transaction rolls back, so the database is
unchanged; on success the database produced by the operation is committed. -/
def runConsume (db : DB) (uid : Nat) (amount : Int) (reason : String)
    (relatedGenerationId : Option Nat := none) (relatedStyleId : Option Nat := none) :
    DB × Except TokenErr Txn :=
  match consumeTokens db uid amount reason relatedGenerationId relatedStyleId with
  | .ok (db1, t) => (db1, .ok t)
  | .error e => (db, .error e)

end TokenService

/-! ## Webhook receiver (`app/views/webhook.py`) -/

/-- `inference_failed` reads `generation.cost` (webhook.py line 290), but the
`Generation` model names its token field `consumed_tokens` and defines no `cost`
field or property, so the read raises `AttributeError` at runtime.  Embedded as
a constantly-`none` attribute read. -/
def GenerationRec.costAttr (_ : GenerationRec) : Option Int := none

/-- `inference_complete` and `inference_failed` read and assign
`generation.metadata` (webhook.py lines 239-242 and 300-303), but the
`Generation` model defines no `metadata` field, so the first read raises
`AttributeError`.  Embedded as a constantly-`none` attribute read. -/
def GenerationRec.metadataAttr (_ : GenerationRec) : Option Json := none

/-- `training_complete` and `training_failed` read `style_model.user`
(webhook.py lines 101 and 149) to pick the notification recipient, but the
`Style` model names its owner foreign key `artist` and defines no `user`
attribute, so the read raises `AttributeError`.  Embedded as a
constantly-`none` attribute read. -/
def StyleRec.userAttr (_ : StyleRec) : Option Nat := none

/-- `training_progress` (webhook.py lines 26-54).  `style_id` is absent or falsy
(`if not style_id`, so also the integer 0) → 400; unknown style → 404; otherwise
overwrite `training_progress` with the supplied payload and return 200. -/
def trainingProgress (db : DB) (styleId : Option Nat) (progressData : Json) : DB × Nat :=
  match styleId with
  | none => (db, 400)
  | some sid =>
    if sid == 0 then (db, 400)
    else
      match findStyle db sid with
      | none => (db, 404)
      | some s =>
        (setStyle db sid { s with trainingProgress := some progressData }, 200)

/-- `training_complete` (webhook.py lines 57-116).  Missing/falsy `style_id` or
`model_path` → 400; unknown style → 404.  On a known style the handler updates
the row and then evaluates `style_model.user` to create the notification; that
read raises `AttributeError`, so the atomic block rolls back and the view
returns 500. -/
def trainingComplete (db : DB) (styleId : Option Nat) (modelPath : Option String)
    (trainingMetric : Json) : DB × Nat :=
  match styleId with
  | none => (db, 400)
  | some sid =>
    if sid == 0 then (db, 400)
    else
      match modelPath with
      | none => (db, 400)
      | some mp =>
        if mp == "" then (db, 400)
        else
          match findStyle db sid with
          | none => (db, 404)
          | some s =>
            match s.userAttr with
            | none => (db, 500)
            | some _ =>
              (setStyle db sid { s with trainingStatus := "completed",
                                        modelPath := some mp,
                                        trainingMetric := some trainingMetric,
                                        trainingProgress := none }, 200)

/-- `training_failed` (webhook.py lines 119-164).  Missing/falsy `style_id` →
400; unknown style → 404.  On a known style the handler updates the row and
then evaluates `style_model.user` for the notification; that read raises
`AttributeError`, so the atomic block rolls back and the view returns 500. -/
def trainingFailed (db : DB) (styleId : Option Nat)
    (_errorMessage _errorCode : String) : DB × Nat :=
  match styleId with
  | none => (db, 400)
  | some sid =>
    if sid == 0 then (db, 400)
    else
      match findStyle db sid with
      | none => (db, 404)
      | some s =>
        match s.userAttr with
        | none => (db, 500)
        | some _ =>
          (setStyle db sid { s with trainingStatus := "failed",
                                    trainingProgress := none }, 200)

/-- `inference_progress` (webhook.py lines 172-202).  Missing/falsy
`generation_id` → 400; unknown generation → 404; otherwise overwrite
`generation_progress` with the supplied payload
(`save(update_fields=["generation_progress"])`) and return 200. -/
def inferenceProgress (db : DB) (generationId : Option Nat) (progressData : Json) :
    DB × Nat :=
  match generationId with
  | none => (db, 400)
  | some gid =>
    if gid == 0 then (db, 400)
    else
      match findGeneration db gid with
      | none => (db, 404)
      | some g =>
        (setGeneration db gid { g with generationProgress := some progressData }, 200)

/-- `inference_complete` (webhook.py lines 205-261).  Missing/falsy
`generation_id` or `result_url` → 400; unknown generation → 404.  On a known
generation the handler assigns the in-memory fields and then reads
`generation.metadata` to merge metadata; that read raises `AttributeError`
before `save`, so the atomic block rolls back and the view returns 500. -/
def inferenceComplete (db : DB) (generationId : Option Nat) (resultUrl : Option String)
    (_metadata : Json) : DB × Nat :=
  match generationId with
  | none => (db, 400)
  | some gid =>
    if gid == 0 then (db, 400)
    else
      match resultUrl with
      | none => (db, 400)
      | some ru =>
        if ru == "" then (db, 400)
        else
          match findGeneration db gid with
          | none => (db, 404)
          | some g =>
            match g.metadataAttr with
            | none => (db, 500)
            | some _ =>
              (setGeneration db gid { g with status := "completed",
                                             resultUrl := some ru,
                                             generationProgress := none }, 200)

/-- `inference_failed` (webhook.py lines 264-312).  Missing/falsy
`generation_id` → 400; unknown generation → 404.  On a known generation the
handler calls `TokenService.refund_tokens(user_id=generation.user.id,
amount=generation.cost, ...)`; evaluating `generation.cost` raises
`AttributeError` (the model's field is `consumed_tokens`), so the atomic block
rolls back before any refund and the view returns 500. -/
def inferenceFailed (db : DB) (generationId : Option Nat)
    (errorMessage _errorCode : String) : DB × Nat :=
  match generationId with
  | none => (db, 400)
  | some gid =>
    if gid == 0 then (db, 400)
    else
      match findGeneration db gid with
      | none => (db, 404)
      | some g =>
        match g.costAttr with
        | none => (db, 500)
        | some cost =>
          -- Unreachable continuation: what the code would run if the
          -- `generation.cost` read succeeded.
          match TokenService.refundTokens db g.userId cost
              ("Generation failed: " ++ errorMessage) (some gid) with
          | .error _ => (db, 500)
          | .ok (db1, _) =>
            match g.metadataAttr with
            | none => (db, 500)
            | some _ =>
              (setGeneration db1 gid { g with status := "failed",
                                              generationProgress := none }, 200)

/-! ## Webhook authentication middleware (`app/middleware/webhook_auth.py`) -/

/-- What the middleware does with a request: short-circuit with an HTTP status,
or pass the request on to `get_response` (the handler). -/
inductive AuthDecision where
  | respond (code : Nat)
  | pass
deriving Repr, DecidableEq

/-- Python `str.startswith`. -/
def pyStartsWith (s pre : String) : Bool :=
  pre.data.isPrefixOf s.data

/-- One fuel-bounded pass of Python `str.replace(old, "")` over the character
list: every non-overlapping occurrence of `pat` is removed, scanning left to
right.  The fuel (the string length at the call sites) bounds the recursion;
each step consumes at least one character. -/
def dropOccAux (pat : List Char) : Nat → List Char → List Char
  | _, [] => []
  | 0, s => s
  | Nat.succ fuel, c :: rest =>
    if pat.isPrefixOf (c :: rest) then
      dropOccAux pat fuel ((c :: rest).drop pat.length)
    else c :: dropOccAux pat fuel rest

/-- Python `s.replace(pat, "")` for non-empty `pat`. -/
def pyReplaceGone (s pat : String) : String :=
  ⟨dropOccAux pat.data s.data.length s.data⟩

/-- Python `str.strip()`: drop leading and trailing whitespace. -/
def pyStrip (s : String) : String :=
  ⟨((s.data.dropWhile Char.isWhitespace).reverse.dropWhile Char.isWhitespace).reverse⟩

/-- The token the middleware compares against the shared secret
(webhook_auth.py line 35): `auth_header.replace("Bearer ", "").strip()` —
every occurrence of `"Bearer "` is removed, then whitespace is trimmed. -/
def cleanedToken (authHeader : String) : String :=
  pyStrip (pyReplaceGone authHeader "Bearer ")

/-- `WebhookAuthMiddleware.__call__` (webhook_auth.py lines 24-54).  Headers are
modelled by `request.headers.get(..., "")`, so an absent header is `""`.  Paths
outside the webhook tree pass straight through.  Under the webhook tree: header
not starting with `"Bearer "` → 401; unset `INTERNAL_API_TOKEN` → 500; cleaned
token differing from the secret → 401; `X-Request-Source` outside the two
allowed values → 403; otherwise the request reaches the handler. -/
def webhookAuth (secret : String) (path authHeader sourceHeader : String) :
    AuthDecision :=
  if pyStartsWith path "/api/webhooks/" then
    if ¬ pyStartsWith authHeader "Bearer " then .respond 401
    else if secret == "" then .respond 500
    else if cleanedToken authHeader ≠ secret then .respond 401
    else if sourceHeader ≠ "training-server" ∧ sourceHeader ≠ "inference-server" then
      .respond 403
    else .pass
  else .pass

/-! ## Task envelopes (`app/services/rabbitmq_service.py`) -/

/-- The JSON message built by `RabbitMQService.send_training_task`
(rabbitmq_service.py lines 128-165) and published to the `model_training`
queue.  Its `data` object carries `style_id`, `image_paths` and `num_epochs`. -/
def buildTrainingMessage (styleId : Nat) (imagePaths : List String) (numEpochs : Int)
    (taskId webhookUrl : String) : Json :=
  .obj [("task_id", .str taskId),
        ("type", .str "model_training"),
        ("data", .obj [("style_id", .num styleId),
                       ("image_paths", .arr (imagePaths.map Json.str)),
                       ("num_epochs", .num numEpochs)]),
        ("webhook_url", .str webhookUrl)]

/-- The JSON message built by `RabbitMQService.send_generation_task`
(rabbitmq_service.py lines 167-213) and published to the `image_generation`
queue. -/
def buildGenerationMessage (generationId styleId : Nat) (loraPath prompt aspect : String)
    (seed : Option Int) (taskId webhookUrl : String) : Json :=
  .obj [("task_id", .str taskId),
        ("type", .str "image_generation"),
        ("data", .obj [("generation_id", .num generationId),
                       ("style_id", .num styleId),
                       ("lora_path", .str loraPath),
                       ("prompt", .str prompt),
                       ("aspect_ratio", .str aspect),
                       ("seed", match seed with | some n => .num n | none => .null)]),
        ("webhook_url", .str webhookUrl)]

/-- The `data` keys of the training envelope shape that the repository's own
test suite asserts (`test_rabbitmq.py` lines 81-86: `images` and `parameters`
with `epochs`, `learning_rate`, `batch_size`) and that the training consumer
reads (`training_consumer.py` lines 164-168). -/
def specTrainingDataKeys : List String := ["style_id", "images", "parameters"]

/-! ## Generation dispatcher (`app/views/generation.py`, `GenerationViewSet.create`) -/

/-- The fixed aspect-ratio → cost table (`GenerationViewSet.COST_MAP`). -/
def costMap (aspect : String) : Option Int :=
  if aspect == "1:1" then some 50
  else if aspect == "2:2" then some 75
  else if aspect == "1:2" then some 60
  else none

/-- The request body of `POST /api/generations`. -/
structure GenRequest where
  styleId : Option Nat := none
  promptTags : List String := []
  description : String := ""
  aspect : String := "1:1"
  seed : Option Int := none

/-- `GenerationViewSet.create` (generation.py lines 32-181).  `newGenId` is the
primary key the database would assign to the new row; `publish` is the outcome
of `rabbitmq.send_generation_task` (`.ok taskId`, or `.error` when publication
raises).  Validation: falsy `style_id` → 400, empty `prompt_tags` → 400,
unknown aspect ratio → 400, unknown style → 404, style not `completed` or
without a model path → 422.  Then, inside one `transaction.atomic` block:
consume the cost (a `ValueError` → 402 with nothing committed; a missing user →
500), create the `queued` generation row, publish, and store the task id in
`generation_progress`.  If publication raises, the whole block rolls back and
the view returns 500. -/
def submitGeneration (db : DB) (userId : Nat) (req : GenRequest) (newGenId : Nat)
    (publish : Except String String) : DB × Nat :=
  match req.styleId with
  | none => (db, 400)
  | some sid =>
    if sid == 0 then (db, 400)
    else if req.promptTags.isEmpty then (db, 400)
    else
      match costMap req.aspect with
      | none => (db, 400)
      | some cost =>
        match findStyle db sid with
        | none => (db, 404)
        | some style =>
          if style.trainingStatus ≠ "completed" then (db, 422)
          else if style.modelPath = none ∨ style.modelPath = some "" then (db, 422)
          else
            match TokenService.consumeTokens db userId cost
                ("Image generation using style \x27" ++ style.name ++ "\x27") with
            | .error .nonPositiveAmount => (db, 402)
            | .error .insufficientBalance => (db, 402)
            | .error .userNotFound => (db, 500)
            | .ok (db1, _) =>
              let tagsJson : Json := .arr (req.promptTags.map Json.str)
              let gen : GenerationRec :=
                { id := newGenId, userId := userId, styleId := sid,
                  aspect := req.aspect, seed := req.seed, consumedTokens := cost,
                  resultUrl := none, status := "queued",
                  generationProgress := some (.obj [("prompt_tags", tagsJson)]),
                  description := req.description, isPublic := false }
              match publish with
              | .error _ => (db, 500)
              | .ok taskId =>
                let prog2 : Json := .obj [("prompt_tags", tagsJson),
                                          ("task_id", .str taskId)]
                let gen2 := { gen with generationProgress := some prog2 }
                ({ db1 with generations := db1.generations ++ [gen2] }, 201)

/-! ## Style-training dispatcher (`app/views/style.py`, `StyleViewSet.create`,
lines 302-340) -/

/-- Outcome of the dispatch step of style creation: the persisted style row and
the `task_id` / `warning` entries of the response body. -/
structure DispatchOutcome where
  style : StyleRec
  taskId : Option String
  warning : Option String

/-- The dispatch step of `StyleViewSet.create` (style.py lines 302-340), run
after the style row is persisted.  On a successful publish the style's
`training_status` is set to `training` and the response carries the task id;
when `send_training_task` raises, the style is kept (saved) at `pending` and
the response carries a warning string — the row is not rolled back. -/
def dispatchTraining (style : StyleRec) (publish : Except String String) :
    DispatchOutcome :=
  match publish with
  | .ok tid =>
    { style := { style with trainingStatus := "training" },
      taskId := some tid, warning := none }
  | .error e =>
    { style := { style with trainingStatus := "pending" },
      taskId := none,
      warning := some ("Style created but training task could not be submitted: " ++ e) }

/-! ## Welcome bonus (`app/views/auth.py`, `GoogleCallbackView._grant_welcome_bonus`) -/

/-- Does `pat` occur as a contiguous run inside the character list? -/
def containsAux (pat : List Char) : List Char → Bool
  | [] => pat.isEmpty
  | c :: rest => pat.isPrefixOf (c :: rest) || containsAux pat rest

/-- Case-insensitive substring test, modelling Django's `memo__icontains`. -/
def containsCI (s pat : String) : Bool :=
  containsAux (pat.data.map Char.toLower) (s.data.map Char.toLower)

/-- The `memo__icontains='Welcome bonus'` filter of `_grant_welcome_bonus`
(auth.py lines 250-254): an existing `purchase` transaction received by the
user whose memo contains the welcome-bonus tag. -/
def isWelcomeBonusTxn (uid : Nat) (t : Txn) : Bool :=
  t.receiver == some uid && t.txnType == "purchase" && containsCI t.memo "Welcome bonus"

def hasWelcomeBonus (db : DB) (uid : Nat) : Bool :=
  db.transactions.any (isWelcomeBonusTxn uid)

def countWelcomeBonus (db : DB) (uid : Nat) : Nat :=
  (db.transactions.filter (isWelcomeBonusTxn uid)).length

/-- `GoogleCallbackView._grant_welcome_bonus` (auth.py lines 245-268): if a
matching ledger entry already exists the grant returns without touching the
database; otherwise it credits 100 tokens through `TokenService.add_tokens`
with memo `"Welcome bonus for new user"` and type `purchase`.  An exception
from `add_tokens` (missing user) commits nothing. -/
def grantWelcomeBonus (db : DB) (uid : Nat) : DB :=
  if hasWelcomeBonus db uid then db
  else
    match TokenService.addTokens db uid 100 "Welcome bonus for new user" "purchase" with
    | .ok (db1, _) => db1
    | .error _ => db

/-! ## Inference consumer retry loop
(`apps/inference-server/consumer/generation_consumer.py`) -/

/-- One call of `self.real_generation(...)` inside the retry loop: it may return
a URL string (possibly empty), return `None`, or raise. -/
inductive AttemptResult where
  | returns (url : Option String)
  | raises (msg : String)

/-- The `last_error` recorded by one attempt of the loop body
(generation_consumer.py lines 141-165), `none` when the attempt returned a
truthy URL (`if image_url: return True`). -/
def attemptError : AttemptResult → Option String
  | .returns (some u) => if u == "" then some "Generation failed - no image produced" else none
  | .returns none => some "Generation failed - no image produced"
  | .raises m => some m

/-- What one run of `process_generation_task` did. -/
structure ProcessResult where
  success : Bool
  attemptsUsed : Nat
  backoffs : List Nat
  failureWebhooks : List (Option Nat × String × String)

/-- The retry loop of `process_generation_task` (generation_consumer.py lines
137-180): `remaining` counts attempts still allowed, `used` attempts already
made.  A truthy URL returns success immediately; otherwise the error is
recorded and, while attempts remain (`if attempt < max_attempts`), the loop
sleeps `2 ** (attempt - 1)` seconds and retries.  When the budget is exhausted
it posts one `inference/failed` webhook with the aggregated error. -/
def processGo (attempts : Nat → AttemptResult) (genId : Option Nat) :
    Nat → Nat → List Nat → String → ProcessResult
  | 0, used, backoffs, lastError =>
    { success := false, attemptsUsed := used, backoffs := backoffs,
      failureWebhooks :=
        [(genId, "Generation failed after 3 attempts: " ++ lastError,
          "GENERATION_ERROR")] }
  | remaining + 1, used, backoffs, _lastError =>
    let attempt := used + 1
    match attemptError (attempts attempt) with
    | none =>
      { success := true, attemptsUsed := attempt, backoffs := backoffs,
        failureWebhooks := [] }
    | some e =>
      if remaining == 0 then processGo attempts genId remaining attempt backoffs e
      else processGo attempts genId remaining attempt (backoffs ++ [2 ^ (attempt - 1)]) e

/-- `process_generation_task` with its `max_attempts = 3` budget. -/
def processGenerationTask (attempts : Nat → AttemptResult) (genId : Option Nat) :
    ProcessResult :=
  processGo attempts genId 3 0 [] ""

/-- What `on_message` does with the delivery tag: `basic_ack`, or `basic_nack`
with the given `requeue` flag. -/
inductive SettleAction where
  | ack
  | nack (requeue : Bool)
deriving Repr, DecidableEq

/-- A delivery as seen by `on_message`: either a JSON-parse failure or a parsed
message with its `type` and the `generation_id` of its `data`. -/
inductive BrokerMessage where
  | malformed
  | parsed (taskId : String) (taskType : String) (genId : Option Nat)

/-- `GenerationConsumer.on_message` (generation_consumer.py lines 72-110):
JSON-parse failure → `basic_nack(requeue=False)`; `type == "image_generation"`
→ run `process_generation_task`, then `basic_ack` on success and
`basic_nack(requeue=False)` on failure; any other type → `basic_ack` (drop). -/
def onMessage (attempts : Nat → AttemptResult) (msg : BrokerMessage) :
    SettleAction × Option ProcessResult :=
  match msg with
  | .malformed => (.nack false, none)
  | .parsed _ taskType genId =>
    if taskType == "image_generation" then
      let r := processGenerationTask attempts genId
      (if r.success then .ack else .nack false, some r)
    else (.ack, none)

/-! ## Helper lemmas about row lookup and row update -/

theorem findBy_eq_key {α : Type} {key : α → Nat} {k : Nat} {rows : List α} {r : α}
    (h : findBy key k rows = some r) : key r = k := by
  have := List.find?_some h
  simpa using this

theorem replaceBy_cons {α : Type} (key : α → Nat) (k : Nat) (newRow a : α)
    (tl : List α) :
    replaceBy key k newRow (a :: tl)
      = (if key a == k then newRow else a) :: replaceBy key k newRow tl := rfl

theorem findBy_cons {α : Type} (key : α → Nat) (k : Nat) (a : α) (tl : List α) :
    findBy key k (a :: tl) = if key a == k then some a else findBy key k tl := by
  by_cases h : (key a == k) = true
  · simp [findBy, List.find?_cons_of_pos _ h, h]
  · have h2 : (key a == k) = false := by simpa using h
    simp [findBy, List.find?_cons_of_neg, h2]

theorem findBy_replaceBy_self {α : Type} {key : α → Nat} {k : Nat} {rows : List α}
    (newRow : α) (h : (findBy key k rows).isSome = true) (hid : key newRow = k) :
    findBy key k (replaceBy key k newRow rows) = some newRow := by
  induction rows with
  | nil => simp [findBy] at h
  | cons a tl ih =>
    by_cases ha : (key a == k) = true
    · simp [replaceBy_cons, findBy_cons, ha, hid]
    · have ha2 : (key a == k) = false := by simpa using ha
      have h2 : (findBy key k tl).isSome = true := by
        simpa [findBy_cons, ha2] using h
      simpa [replaceBy_cons, findBy_cons, ha2] using ih h2

theorem findBy_replaceBy_ne {α : Type} {key : α → Nat} {k k2 : Nat} {rows : List α}
    (newRow : α) (hk : k2 ≠ k) (hid : key newRow = k) :
    findBy key k2 (replaceBy key k newRow rows) = findBy key k2 rows := by
  induction rows with
  | nil => rfl
  | cons a tl ih =>
    by_cases ha : (key a == k) = true
    · have haeq : key a = k := by simpa using ha
      have hnew : (key newRow == k2) = false := by
        simp [hid]
        exact fun h2 => hk h2.symm
      have ha2 : (key a == k2) = false := by
        simp [haeq]
        exact fun h2 => hk h2.symm
      simpa [replaceBy_cons, findBy_cons, ha, hnew, ha2] using ih
    · have ha2 : (key a == k) = false := by simpa using ha
      by_cases hb : (key a == k2) = true
      · simp [replaceBy_cons, findBy_cons, ha2, hb]
      · have hb2 : (key a == k2) = false := by simpa using hb
        simpa [replaceBy_cons, findBy_cons, ha2, hb2] using ih

/-! ## Claims -/

/-- C3: `TokenService.consume_tokens` raises if and only if the amount is not a
positive integer or the account's balance is strictly below the amount; a
raised error rolls back the atomic block, leaving the balance and the
transaction log unchanged; on success the balance drops by exactly the amount
and exactly one `consume`-type transaction with status `completed` is
appended. -/
theorem consume_tokens_spec (db : DB) (uid : Nat) (amount : Int) (reason : String)
    (rg rs : Option Nat) (u : UserRec) (hu : findUser db uid = some u) :
    ((∃ e, (TokenService.runConsume db uid amount reason rg rs).2 = .error e)
        ↔ (amount ≤ 0 ∨ u.tokenBalance < amount))
    ∧ (∀ e, (TokenService.runConsume db uid amount reason rg rs).2 = .error e →
        (TokenService.runConsume db uid amount reason rg rs).1 = db)
    ∧ (∀ t, (TokenService.runConsume db uid amount reason rg rs).2 = .ok t →
        findUser (TokenService.runConsume db uid amount reason rg rs).1 uid
            = some { u with tokenBalance := u.tokenBalance - amount }
        ∧ (TokenService.runConsume db uid amount reason rg rs).1.transactions
            = db.transactions ++ [t]
        ∧ t.txnType = "consume" ∧ t.txnStatus = "completed" ∧ t.amount = amount
        ∧ t.sender = some uid ∧ t.receiver = none
        ∧ t.relatedGenerationId = rg ∧ t.relatedStyleId = rs
        ∧ (TokenService.runConsume db uid amount reason rg rs).1.generations
            = db.generations
        ∧ (TokenService.runConsume db uid amount reason rg rs).1.styles = db.styles
        ∧ (∀ uid2, uid2 ≠ uid →
            findUser (TokenService.runConsume db uid amount reason rg rs).1 uid2
              = findUser db uid2)) := by
  have hid : u.id = uid := findBy_eq_key hu
  have hsome : (findBy UserRec.id uid db.users).isSome = true := by
    rw [show findBy UserRec.id uid db.users = some u from hu]
    rfl
  by_cases h1 : amount ≤ 0
  · refine ⟨⟨fun _ => Or.inl h1, fun _ => ⟨.nonPositiveAmount, ?_⟩⟩, fun e he => ?_,
      fun t ht => ?_⟩
    · simp [TokenService.runConsume, TokenService.consumeTokens, h1]
    · simp [TokenService.runConsume, TokenService.consumeTokens, h1]
    · simp [TokenService.runConsume, TokenService.consumeTokens, h1] at ht
  · by_cases h2 : u.tokenBalance < amount
    · refine ⟨⟨fun _ => Or.inr h2, fun _ => ⟨.insufficientBalance, ?_⟩⟩, fun e he => ?_,
        fun t ht => ?_⟩
      · simp [TokenService.runConsume, TokenService.consumeTokens, h1, hu, h2]
      · simp [TokenService.runConsume, TokenService.consumeTokens, h1, hu, h2]
      · simp [TokenService.runConsume, TokenService.consumeTokens, h1, hu, h2] at ht
    · refine ⟨⟨fun he => ?_, fun hor => ?_⟩, fun e he => ?_, fun t ht => ?_⟩
      · obtain ⟨e, he⟩ := he
        simp [TokenService.runConsume, TokenService.consumeTokens, h1, hu, h2] at he
      · exact absurd hor (by simp [h1, h2])
      · simp [TokenService.runConsume, TokenService.consumeTokens, h1, hu, h2] at he
      · have ht2 : t =
            { sender := some uid, amount := amount, txnType := "consume",
              txnStatus := "completed", memo := reason, relatedGenerationId := rg,
              relatedStyleId := rs } := by
          have := ht
          simp [TokenService.runConsume, TokenService.consumeTokens, h1, hu, h2]
            at this
          exact this.symm
        have hrun : (TokenService.runConsume db uid amount reason rg rs).1
            = appendTxn
                (setUser db uid { u with tokenBalance := u.tokenBalance - amount })
                t := by
          simp [TokenService.runConsume, TokenService.consumeTokens, h1, hu, h2, ht2]
        refine ⟨?_, ?_, by simp [ht2], by simp [ht2], by simp [ht2], by simp [ht2],
          by simp [ht2], by simp [ht2], by simp [ht2], ?_, ?_, ?_⟩
        · rw [hrun]
          exact findBy_replaceBy_self _ hsome hid
        · rw [hrun]
          rfl
        · rw [hrun]
          rfl
        · rw [hrun]
          rfl
        · intro uid2 hne
          rw [hrun]
          exact findBy_replaceBy_ne _ hne hid

/-- Witness for `consume_tokens_spec`: a concrete account with balance 100
satisfies the lookup hypothesis, and a debit of 50 neither raises nor is
allowed to raise. -/
theorem consume_tokens_spec_witness :
    (findUser { users := [{ id := 1, tokenBalance := 100 }] } 1
        = some { id := 1, tokenBalance := 100 })
    ∧ ((∃ e, (TokenService.runConsume { users := [{ id := 1, tokenBalance := 100 }] }
            1 50 "debit" none none).2 = .error e)
        ↔ ((50 : Int) ≤ 0 ∨ (100 : Int) < 50)) :=
  ⟨rfl, (consume_tokens_spec { users := [{ id := 1, tokenBalance := 100 }] }
      1 50 "debit" none none { id := 1, tokenBalance := 100 } rfl).1⟩

/-- C7: the inference progress webhook overwrites only the generation's
`generation_progress` field with the supplied payload; its `status`,
`result_url`, `consumed_tokens` and owner are unchanged, every other row is
untouched, and the response is 200. -/
theorem inference_progress_frame (db : DB) (gid : Nat) (g : GenerationRec) (p : Json)
    (hg : findGeneration db gid = some g) (h0 : gid ≠ 0) :
    (inferenceProgress db (some gid) p).2 = 200
    ∧ findGeneration (inferenceProgress db (some gid) p).1 gid
        = some { g with generationProgress := some p }
    ∧ (findGeneration (inferenceProgress db (some gid) p).1 gid).map
        GenerationRec.status = some g.status
    ∧ (findGeneration (inferenceProgress db (some gid) p).1 gid).map
        GenerationRec.resultUrl = some g.resultUrl
    ∧ (findGeneration (inferenceProgress db (some gid) p).1 gid).map
        GenerationRec.consumedTokens = some g.consumedTokens
    ∧ (findGeneration (inferenceProgress db (some gid) p).1 gid).map
        GenerationRec.userId = some g.userId
    ∧ (∀ gid2, gid2 ≠ gid →
        findGeneration (inferenceProgress db (some gid) p).1 gid2
          = findGeneration db gid2)
    ∧ (inferenceProgress db (some gid) p).1.users = db.users
    ∧ (inferenceProgress db (some gid) p).1.transactions = db.transactions
    ∧ (inferenceProgress db (some gid) p).1.styles = db.styles := by
  have hid : g.id = gid := findBy_eq_key hg
  have hsome : (findBy GenerationRec.id gid db.generations).isSome = true := by
    rw [show findBy GenerationRec.id gid db.generations = some g from hg]
    rfl
  have h0b : (gid == 0) = false := by simpa using h0
  have hrun : inferenceProgress db (some gid) p
      = (setGeneration db gid { g with generationProgress := some p }, 200) := by
    simp [inferenceProgress, h0b, hg]
  have hfind : findGeneration (inferenceProgress db (some gid) p).1 gid
      = some { g with generationProgress := some p } := by
    rw [hrun]
    exact findBy_replaceBy_self _ hsome hid
  refine ⟨by rw [hrun], hfind, by rw [hfind]; rfl, by rw [hfind]; rfl,
    by rw [hfind]; rfl, by rw [hfind]; rfl, fun gid2 hne => ?_,
    by rw [hrun]; rfl, by rw [hrun]; rfl, by rw [hrun]; rfl⟩
  rw [hrun]
  exact findBy_replaceBy_ne _ hne hid

/-- Witness for `inference_progress_frame` at a concrete queued generation. -/
theorem inference_progress_frame_witness :
    (findGeneration { generations := [{ id := 4, userId := 7, styleId := 3 }] } 4
        = some { id := 4, userId := 7, styleId := 3 })
    ∧ (inferenceProgress { generations := [{ id := 4, userId := 7, styleId := 3 }] }
        (some 4) (Json.obj [("progress_percent", Json.num 50)])).2 = 200 :=
  ⟨rfl, (inference_progress_frame
      { generations := [{ id := 4, userId := 7, styleId := 3 }] } 4
      { id := 4, userId := 7, styleId := 3 }
      (Json.obj [("progress_percent", Json.num 50)]) rfl (by decide)).1⟩

/-- C10: every webhook handler answers 404 and leaves the database unchanged
when the referenced style or generation id does not correspond to an existing
row; in particular an inference `failed` webhook for an unknown generation
creates no refund transaction and changes no balance. -/
theorem webhook_unknown_id_404 (db : DB) (sid gid : Nat) (p mj : Json)
    (mp ru em ec : String)
    (hs : findStyle db sid = none) (hs0 : sid ≠ 0)
    (hg : findGeneration db gid = none) (hg0 : gid ≠ 0)
    (hmp : mp ≠ "") (hru : ru ≠ "") :
    trainingProgress db (some sid) p = (db, 404)
    ∧ trainingComplete db (some sid) (some mp) mj = (db, 404)
    ∧ trainingFailed db (some sid) em ec = (db, 404)
    ∧ inferenceProgress db (some gid) p = (db, 404)
    ∧ inferenceComplete db (some gid) (some ru) mj = (db, 404)
    ∧ inferenceFailed db (some gid) em ec = (db, 404) := by
  have hs0b : (sid == 0) = false := by simpa using hs0
  have hg0b : (gid == 0) = false := by simpa using hg0
  have hmpb : (mp == "") = false := by simpa using hmp
  have hrub : (ru == "") = false := by simpa using hru
  refine ⟨?_, ?_, ?_, ?_, ?_, ?_⟩
  · simp [trainingProgress, hs0b, hs]
  · simp [trainingComplete, hs0b, hmpb, hs]
  · simp [trainingFailed, hs0b, hs]
  · simp [inferenceProgress, hg0b, hg]
  · simp [inferenceComplete, hg0b, hrub, hg]
  · simp [inferenceFailed, hg0b, hg]

/-- Witness for `webhook_unknown_id_404`: an empty database knows no style 5
and no generation 9. -/
theorem webhook_unknown_id_404_witness :
    trainingProgress {} (some 5) Json.null = ({}, 404)
    ∧ inferenceFailed {} (some 9) "boom" "ERR" = ({}, 404) :=
  ⟨(webhook_unknown_id_404 {} 5 9 Json.null Json.null "m" "r" "boom" "ERR"
      rfl (by decide) rfl (by decide) (by decide) (by decide)).1,
   (webhook_unknown_id_404 {} 5 9 Json.null Json.null "m" "r" "boom" "ERR"
      rfl (by decide) rfl (by decide) (by decide) (by decide)).2.2.2.2.2⟩

/-- C1: claimed — an inference `failed` webhook for a queued generation marks
it failed and refunds its cost.  What the code does instead: `inference_failed`
evaluates `generation.cost`, an attribute the `Generation` model does not
define (the field is `consumed_tokens`), so the handler raises
`AttributeError`, the atomic block rolls back, and the view returns 500 with
the generation still `queued`, no refund transaction, and the balance
untouched — contradicting the repository's own test
`test_inference_failed_refunds_tokens` and the spec. -/
theorem inference_failed_cost_crash :
    inferenceFailed
        { users := [{ id := 7, tokenBalance := 50 }],
          generations := [{ id := 1, userId := 7, styleId := 3,
                            consumedTokens := 50, status := "queued" }] }
        (some 1) "GPU out of memory" "OOM_ERROR"
      = ({ users := [{ id := 7, tokenBalance := 50 }],
           generations := [{ id := 1, userId := 7, styleId := 3,
                             consumedTokens := 50, status := "queued" }] }, 500) := rfl

/-- C2: if publishing the JobEnvelope raises during `GenerationViewSet.create`,
the whole atomic unit rolls back — the database after the call is exactly the
database before it: no Generation row for the attempt, no debit entry, and
every balance unchanged. -/
theorem submit_generation_publish_rollback (db : DB) (userId : Nat)
    (req : GenRequest) (newGenId : Nat) (e : String) :
    (submitGeneration db userId req newGenId (.error e)).1 = db
    ∧ (submitGeneration db userId req newGenId (.error e)).1.generations
        = db.generations
    ∧ (submitGeneration db userId req newGenId (.error e)).1.transactions
        = db.transactions
    ∧ (∀ uid, findUser (submitGeneration db userId req newGenId (.error e)).1 uid
        = findUser db uid) := by
  have h : (submitGeneration db userId req newGenId (.error e)).1 = db := by
    unfold submitGeneration
    repeat' split <;> try rfl
  exact ⟨h, by rw [h], by rw [h], fun uid => by rw [h]⟩

/-- C4 counterexample: the middleware compares the header with **every**
occurrence of `"Bearer "` removed and whitespace trimmed, so the request
`Authorization: Bearer Bearer s` against secret `"s"` reaches the handler even
though its Bearer token — the part after the `"Bearer "` marker — is
`"Bearer s"`, which mismatches the secret; the claim demands a 401 here. -/
theorem webhook_auth_replace_all_quirk :
    webhookAuth "s" "/api/webhooks/inference/failed" "Bearer Bearer s" "training-server"
      = AuthDecision.pass
    ∧ ("Bearer Bearer s").data.drop "Bearer ".data.length = "Bearer s".data
    ∧ "Bearer s" ≠ "s" := by
  refine ⟨by decide, by decide, by decide⟩

/-- C4 amended: with the secret configured and the path under the webhook
tree, the middleware responds 401 exactly when the Authorization header does
not start with `"Bearer "` or its cleaned token (all `"Bearer "` occurrences
removed, whitespace trimmed) differs from the secret; 403 exactly when the
cleaned token matches but `X-Request-Source` is neither `training-server` nor
`inference-server`; and passes the request to the handler exactly when the
cleaned token matches and the source is one of those two values. -/
theorem webhook_auth_decision_spec (secret path auth src : String)
    (hp : pyStartsWith path "/api/webhooks/" = true) (hs : secret ≠ "") :
    (webhookAuth secret path auth src = .respond 401
        ↔ (pyStartsWith auth "Bearer " = false ∨ cleanedToken auth ≠ secret))
    ∧ (webhookAuth secret path auth src = .respond 403
        ↔ (pyStartsWith auth "Bearer " = true ∧ cleanedToken auth = secret
           ∧ src ≠ "training-server" ∧ src ≠ "inference-server"))
    ∧ (webhookAuth secret path auth src = .pass
        ↔ (pyStartsWith auth "Bearer " = true ∧ cleanedToken auth = secret
           ∧ (src = "training-server" ∨ src = "inference-server"))) := by
  have hs2 : (secret == "") = false := by simpa using hs
  by_cases hb : pyStartsWith auth "Bearer " = true
  · by_cases ht : cleanedToken auth = secret
    · by_cases h1 : src = "training-server"
      · simp [webhookAuth, hp, hb, hs2, ht, h1]
      · by_cases h2 : src = "inference-server"
        · simp [webhookAuth, hp, hb, hs2, ht, h1, h2]
        · simp [webhookAuth, hp, hb, hs2, ht, h1, h2]
    · simp [webhookAuth, hp, hb, hs2, ht]
  · have hb2 : pyStartsWith auth "Bearer " = false := by simpa using hb
    simp [webhookAuth, hp, hb2, hs2]

/-- Witness for `webhook_auth_decision_spec`: a correct token from
`training-server` reaches the handler. -/
theorem webhook_auth_decision_spec_witness :
    pyStartsWith "/api/webhooks/training/progress" "/api/webhooks/" = true
    ∧ "tok" ≠ ""
    ∧ (webhookAuth "tok" "/api/webhooks/training/progress" "Bearer tok"
          "training-server" = .pass
        ↔ (pyStartsWith "Bearer tok" "Bearer " = true
           ∧ cleanedToken "Bearer tok" = "tok"
           ∧ ("training-server" = "training-server"
              ∨ "training-server" = "inference-server"))) :=
  ⟨by decide, by decide,
   (webhook_auth_decision_spec "tok" "/api/webhooks/training/progress" "Bearer tok"
      "training-server" (by decide) (by decide)).2.2⟩

/-- C6: when publishing the training envelope raises, the Style row is kept
(saved at `pending`, differing from the created row in no other field) and the
response records a warning; when publication succeeds, `training_status` moves
to `training` and the response carries the task id with no warning. -/
theorem style_dispatch_policy (style : StyleRec) (e tid : String) :
    (dispatchTraining style (.error e)).style
        = { style with trainingStatus := "pending" }
    ∧ (dispatchTraining style (.error e)).warning
        = some ("Style created but training task could not be submitted: " ++ e)
    ∧ (dispatchTraining style (.error e)).taskId = none
    ∧ (dispatchTraining style (.ok tid)).style
        = { style with trainingStatus := "training" }
    ∧ (dispatchTraining style (.ok tid)).taskId = some tid
    ∧ (dispatchTraining style (.ok tid)).warning = none :=
  ⟨rfl, rfl, rfl, rfl, rfl, rfl⟩

/-- C9: the published envelopes have top-level keys `task_id`, `type`, `data`,
`webhook_url`, and the generation `data` carries exactly the six claimed
fields — but the training `data` carries `style_id`, `image_paths`,
`num_epochs`, not the `style_id`, `images`, `parameters` shape that the claim,
the repository's own test suite (`test_rabbitmq.py` lines 81-86) and the
training consumer (`training_consumer.py` lines 164-168) all expect. -/
theorem training_envelope_shape :
    Json.keys (buildTrainingMessage 123 ["gs://b/img0.png", "gs://b/img1.png"] 200
        "task-1" "http://backend/api/webhooks/training/123/status")
      = ["task_id", "type", "data", "webhook_url"]
    ∧ ((buildTrainingMessage 123 ["gs://b/img0.png", "gs://b/img1.png"] 200 "task-1"
        "http://backend/api/webhooks/training/123/status").lookup "data").map Json.keys
      = some ["style_id", "image_paths", "num_epochs"]
    ∧ ¬ (((buildTrainingMessage 123 ["gs://b/img0.png", "gs://b/img1.png"] 200 "task-1"
        "http://backend/api/webhooks/training/123/status").lookup "data").map Json.keys
      = some specTrainingDataKeys)
    ∧ Json.keys (buildGenerationMessage 456 123 "gs://b/lora" "a cat" "1:1" (some 42)
        "task-2" "http://backend/api/webhooks/generation/456/status")
      = ["task_id", "type", "data", "webhook_url"]
    ∧ ((buildGenerationMessage 456 123 "gs://b/lora" "a cat" "1:1" (some 42) "task-2"
        "http://backend/api/webhooks/generation/456/status").lookup "data").map Json.keys
      = some ["generation_id", "style_id", "lora_path", "prompt", "aspect_ratio",
              "seed"] := by
  refine ⟨rfl, rfl, ?_, rfl, rfl⟩
  intro h
  have h2 : ["style_id", "image_paths", "num_epochs"] = specTrainingDataKeys := by
    have h3 : (some ["style_id", "image_paths", "num_epochs"]
        : Option (List String)) = some specTrainingDataKeys := by
      rw [show (some ["style_id", "image_paths", "num_epochs"]
          : Option (List String)) = ((buildTrainingMessage 123
          ["gs://b/img0.png", "gs://b/img1.png"] 200 "task-1"
          "http://backend/api/webhooks/training/123/status").lookup "data").map
          Json.keys from rfl]
      exact h
    exact Option.some_injective _ h3
  simp [specTrainingDataKeys] at h2

theorem processGo_zero (attempts : Nat → AttemptResult) (genId : Option Nat)
    (used : Nat) (backoffs : List Nat) (lastError : String) :
    processGo attempts genId 0 used backoffs lastError
      = { success := false, attemptsUsed := used, backoffs := backoffs,
          failureWebhooks :=
            [(genId, "Generation failed after 3 attempts: " ++ lastError,
              "GENERATION_ERROR")] } := rfl

theorem processGo_succ (attempts : Nat → AttemptResult) (genId : Option Nat)
    (rem used : Nat) (backoffs : List Nat) (lastError : String) :
    processGo attempts genId (rem + 1) used backoffs lastError
      = (match attemptError (attempts (used + 1)) with
         | none =>
           { success := true, attemptsUsed := used + 1, backoffs := backoffs,
             failureWebhooks := [] }
         | some e =>
           if rem == 0 then processGo attempts genId rem (used + 1) backoffs e
           else processGo attempts genId rem (used + 1)
             (backoffs ++ [2 ^ (used + 1 - 1)]) e) := rfl

/-- C5 counterexample: for a task whose every execution attempt fails, the
sleeps between the three attempts are 1s and 2s — not the claimed 1s, 2s, 4s —
and `on_message` settles the delivery with `basic_nack(requeue=False)`, not
with an acknowledgment. -/
theorem consumer_retry_observed :
    (processGenerationTask (fun _ => .raises "boom") (some 7)).backoffs = [1, 2]
    ∧ (processGenerationTask (fun _ => .raises "boom") (some 7)).backoffs ≠ [1, 2, 4]
    ∧ (onMessage (fun _ => .raises "boom")
        (.parsed "t1" "image_generation" (some 7))).1 = SettleAction.nack false
    ∧ SettleAction.nack false ≠ SettleAction.ack := by
  refine ⟨rfl, by decide, rfl, by decide⟩

/-- C5 amended: the consumer makes at most 3 execution attempts; when all fail
it has made exactly 3 attempts with exponential backoff of 1s then 2s between
them (there is no third gap), posts the failure webhook exactly once with the
aggregated error, and the delivery is settled without requeue in every case —
`basic_ack` exactly on success, `basic_nack(requeue=False)` otherwise — so the
broker never redelivers it. -/
theorem consumer_retry_spec (attempts : Nat → AttemptResult) (genId : Option Nat)
    (tid : String) :
    (processGenerationTask attempts genId).attemptsUsed ≤ 3
    ∧ ((processGenerationTask attempts genId).success = false →
        (processGenerationTask attempts genId).attemptsUsed = 3
        ∧ (processGenerationTask attempts genId).backoffs = [1, 2]
        ∧ ∃ err, (processGenerationTask attempts genId).failureWebhooks
            = [(genId, "Generation failed after 3 attempts: " ++ err,
                "GENERATION_ERROR")])
    ∧ ((processGenerationTask attempts genId).success = true →
        (processGenerationTask attempts genId).failureWebhooks = [])
    ∧ (∀ msg, (onMessage attempts msg).1 ≠ SettleAction.nack true)
    ∧ ((onMessage attempts (.parsed tid "image_generation" genId)).1
          = SettleAction.ack
        ↔ (processGenerationTask attempts genId).success = true) := by
  have hnever : ∀ msg, (onMessage attempts msg).1 ≠ SettleAction.nack true := by
    intro msg
    cases msg with
    | malformed => simp [onMessage]
    | parsed t ty g2 =>
      by_cases hty : (ty == "image_generation") = true
      · simp only [onMessage, hty, if_true]
        cases hr : (processGenerationTask attempts g2).success <;> simp [hr]
      · have hty2 : (ty == "image_generation") = false := by simpa using hty
        simp [onMessage, hty2]
  have hmain : (processGenerationTask attempts genId).attemptsUsed ≤ 3
      ∧ ((processGenerationTask attempts genId).success = false →
          (processGenerationTask attempts genId).attemptsUsed = 3
          ∧ (processGenerationTask attempts genId).backoffs = [1, 2]
          ∧ ∃ err, (processGenerationTask attempts genId).failureWebhooks
              = [(genId, "Generation failed after 3 attempts: " ++ err,
                  "GENERATION_ERROR")])
      ∧ ((processGenerationTask attempts genId).success = true →
          (processGenerationTask attempts genId).failureWebhooks = []) := by
    rcases h1 : attemptError (attempts 1) with _ | e1
    · have hp : processGenerationTask attempts genId
          = { success := true, attemptsUsed := 1, backoffs := [],
              failureWebhooks := [] } := by
        show processGo attempts genId (2 + 1) 0 [] "" = _
        rw [processGo_succ]
        norm_num [h1]
      simp [hp]
    · rcases h2 : attemptError (attempts 2) with _ | e2
      · have hp : processGenerationTask attempts genId
            = { success := true, attemptsUsed := 2, backoffs := [1],
                failureWebhooks := [] } := by
          show processGo attempts genId (2 + 1) 0 [] "" = _
          rw [processGo_succ]
          norm_num [h1]
          rw [show (2 : Nat) = 1 + 1 from rfl, processGo_succ]
          norm_num [h2]
        simp [hp]
      · rcases h3 : attemptError (attempts 3) with _ | e3
        · have hp : processGenerationTask attempts genId
              = { success := true, attemptsUsed := 3, backoffs := [1, 2],
                  failureWebhooks := [] } := by
            show processGo attempts genId (2 + 1) 0 [] "" = _
            rw [processGo_succ]
            norm_num [h1]
            rw [show (2 : Nat) = 1 + 1 from rfl, processGo_succ]
            norm_num [h2]
            rw [show (1 : Nat) = 0 + 1 from rfl, processGo_succ]
            norm_num [h3]
          simp [hp]
        · have hp : processGenerationTask attempts genId
              = { success := false, attemptsUsed := 3, backoffs := [1, 2],
                  failureWebhooks :=
                    [(genId, "Generation failed after 3 attempts: " ++ e3,
                      "GENERATION_ERROR")] } := by
            show processGo attempts genId (2 + 1) 0 [] "" = _
            rw [processGo_succ]
            norm_num [h1]
            rw [show (2 : Nat) = 1 + 1 from rfl, processGo_succ]
            norm_num [h2]
            rw [show (1 : Nat) = 0 + 1 from rfl, processGo_succ]
            norm_num [h3, processGo_zero]
          refine ⟨by simp [hp], fun _ => ⟨by simp [hp], by simp [hp], e3, by simp [hp]⟩,
            fun hsucc => ?_⟩
          rw [hp] at hsucc
          simp at hsucc
  refine ⟨hmain.1, hmain.2.1, hmain.2.2, hnever, ?_⟩
  simp only [onMessage, beq_self_eq_true, if_true]
  cases hr : (processGenerationTask attempts genId).success <;> simp [hr]

/-- Witness for `consumer_retry_spec` at a concrete always-failing engine. -/
theorem consumer_retry_spec_witness :
    (processGenerationTask (fun _ => .returns none) (some 3)).attemptsUsed ≤ 3
    ∧ ((onMessage (fun _ => .returns none)
          (.parsed "t" "image_generation" (some 3))).1 = SettleAction.ack
        ↔ (processGenerationTask (fun _ => .returns none) (some 3)).success
            = true) :=
  ⟨(consumer_retry_spec (fun _ => .returns none) (some 3) "t").1,
   (consumer_retry_spec (fun _ => .returns none) (some 3) "t").2.2.2.2⟩

/-- C8: the welcome bonus is idempotent per account — if a `purchase` ledger
entry whose memo contains the welcome-bonus tag already exists for the account,
the grant is a no-op; otherwise it credits 100 tokens once, and a second
sequential run leaves exactly one bonus entry and the balance credited exactly
once. -/
theorem welcome_bonus_idempotent (db : DB) (uid : Nat) (u : UserRec)
    (hu : findUser db uid = some u) (hnone : hasWelcomeBonus db uid = false) :
    countWelcomeBonus (grantWelcomeBonus db uid) uid = 1
    ∧ findUser (grantWelcomeBonus db uid) uid
        = some { u with tokenBalance := u.tokenBalance + 100 }
    ∧ grantWelcomeBonus (grantWelcomeBonus db uid) uid = grantWelcomeBonus db uid
    ∧ (∀ db2 : DB, hasWelcomeBonus db2 uid = true → grantWelcomeBonus db2 uid = db2) := by
  have hid : u.id = uid := findBy_eq_key hu
  have hsome : (findBy UserRec.id uid db.users).isSome = true := by
    rw [show findBy UserRec.id uid db.users = some u from hu]
    rfl
  have h100 : ¬ ((100 : Int) ≤ 0) := by norm_num
  have hnoop : ∀ db2 : DB, hasWelcomeBonus db2 uid = true →
      grantWelcomeBonus db2 uid = db2 := by
    intro db2 h
    simp [grantWelcomeBonus, h]
  have hgrant : grantWelcomeBonus db uid
      = appendTxn (setUser db uid { u with tokenBalance := u.tokenBalance + 100 })
          { receiver := some uid, amount := 100, txnType := "purchase",
            txnStatus := "completed", memo := "Welcome bonus for new user" } := by
    simp [grantWelcomeBonus, hnone, TokenService.addTokens, hu, h100]
  have hci : containsCI "Welcome bonus for new user" "Welcome bonus" = true := by
    decide
  have hmatch : isWelcomeBonusTxn uid
      { receiver := some uid, amount := 100, txnType := "purchase",
        txnStatus := "completed", memo := "Welcome bonus for new user" } = true := by
    simp [isWelcomeBonusTxn, hci]
  have hfilter : db.transactions.filter (isWelcomeBonusTxn uid) = [] := by
    have hall : ∀ t ∈ db.transactions, ¬ isWelcomeBonusTxn uid t = true := by
      have := hnone
      simpa [hasWelcomeBonus, List.any_eq_true] using this
    simpa using List.filter_eq_nil_iff.mpr hall
  refine ⟨?_, ?_, ?_, hnoop⟩
  · rw [hgrant]
    simp [countWelcomeBonus, appendTxn, setUser, List.filter_append, hfilter, hmatch]
  · rw [hgrant]
    exact findBy_replaceBy_self _ hsome hid
  · apply hnoop
    rw [hgrant]
    simp [hasWelcomeBonus, appendTxn, setUser, List.any_append, hmatch]

/-- Witness for `welcome_bonus_idempotent` on a fresh account with no
transactions. -/
theorem welcome_bonus_idempotent_witness :
    (findUser { users := [{ id := 1, tokenBalance := 0 }] } 1
        = some { id := 1, tokenBalance := 0 })
    ∧ (hasWelcomeBonus { users := [{ id := 1, tokenBalance := 0 }] } 1 = false)
    ∧ countWelcomeBonus
        (grantWelcomeBonus { users := [{ id := 1, tokenBalance := 0 }] } 1) 1 = 1
    ∧ findUser (grantWelcomeBonus { users := [{ id := 1, tokenBalance := 0 }] } 1) 1
        = some { id := 1, tokenBalance := 100 } :=
  ⟨rfl, rfl,
   (welcome_bonus_idempotent { users := [{ id := 1, tokenBalance := 0 }] } 1
      { id := 1, tokenBalance := 0 } rfl rfl).1,
   (welcome_bonus_idempotent { users := [{ id := 1, tokenBalance := 0 }] } 1
      { id := 1, tokenBalance := 0 } rfl rfl).2.1⟩
